import Mathlib

/-!
Shallow embedding of `src/backend/src/repositories/itemRepository.js`.

The repository keeps two module-level mutable variables,
`let cachedData = null` and `let lastFileMtime = null`, and exposes
`readData`, `writeData` and `getLastModifiedTime`; an `fs.watch` callback
invalidates the cache on external file changes.  We model:

* JavaScript values that can result from `JSON.parse` as the inductive
  type `Json`; the variable `cachedData` holds such a value (its initial
  JS `null` is the JSON value `null`, since `JSON.parse` can itself
  return `null`, and the code distinguishes the two nowhere: presence of
  a cached value is tested by JS truthiness, `if (cachedData)`).
* `lastFileMtime` as `Option Nat` (a JS `Date` or `null`; `Date` objects
  are always truthy, so `!lastFileMtime` holds exactly for `null`;
  `getTime()` comparison becomes equality of the `Nat` timestamps).
* The file `data/items.json` as a `PersistentStore` snapshot: `file = none`
  means the file is absent or unreadable, so both `fs.readFile` and
  `fs.stat` reject there; `file = some c` means the file exists with
  byte content whose parse result is `c` (`Except.error ()` stands for
  bytes `JSON.parse` rejects, `Except.ok j` for a well-formed
  serialization of the value `j`).  `JSON.stringify`/`JSON.parse` are
  Node library functions, not code of this repository; they are modelled
  at the value level: a successful write of `data` stores a well-formed
  serialization of `data` (see `writtenStore`), and reading it back
  parses to `data`.
* Each `await`ed filesystem operation observes its own store snapshot,
  because the file can be changed by other processes between the
  suspension points of one repository operation.  Claims about
  executions with no intervening store modification instantiate all
  snapshots of a call with the same store.
-/

/-- A JSON value, the possible results of `JSON.parse` (numbers as
rationals; JSON has no `NaN`/`Infinity` literals). -/
inductive Json where
  | null : Json
  | bool : Bool → Json
  | num : Rat → Json
  | str : String → Json
  | arr : List Json → Json
  | obj : List (String × Json) → Json

/-- JavaScript truthiness of a JSON value: `null`, `false`, `0` and the
empty string are falsy; every array and object is truthy.  This is the
test `if (cachedData)` performs. -/
def Json.truthy : Json → Bool
  | .null => false
  | .bool b => b
  | .num n => decide (n ≠ 0)
  | .str s => decide (s ≠ "")
  | .arr _ => true
  | .obj _ => true

/-- Errors a repository operation can reject with: `ioError` for a
rejected `fs.readFile`/`fs.stat`/`fs.writeFile`, `decodeError` for a
`JSON.parse` throw. -/
inductive RepoError where
  | ioError : RepoError
  | decodeError : RepoError
deriving DecidableEq

/-- The two module-level variables of `itemRepository.js`:
`cachedData` (a JS value, initially `null`) and `lastFileMtime`
(a `Date` or `null`). -/
structure RepoState where
  cachedData : Json
  lastFileMtime : Option Nat

/-- A snapshot of `data/items.json` as one `await`ed fs call observes it.
`file = none`: absent/unreadable (`fs.readFile` and `fs.stat` reject);
`file = some (Except.error ())`: present but malformed (`JSON.parse`
throws); `file = some (Except.ok j)`: present, parsing to `j`.
`mtime` is what `fs.stat` reports. -/
structure PersistentStore where
  file : Option (Except Unit Json)
  mtime : Nat

/-- The state at module load: `cachedData = null`, `lastFileMtime = null`. -/
def initState : RepoState := { cachedData := Json.null, lastFileMtime := none }

/-- The assignment `cachedData = v` alone, leaving `lastFileMtime`
untouched.  In `readData` this is the repository state at the suspension
point `await fs.stat(DATA_PATH)` that sits between the assignment
`cachedData = JSON.parse(raw)` and the assignment
`lastFileMtime = stats.mtime`; in `writeData` (with `v = Json.null`) it
is the state at the same suspension point between `cachedData = null`
and `lastFileMtime = stats.mtime`. -/
def setCached (s : RepoState) (v : Json) : RepoState := { s with cachedData := v }

/-- `readData()`.  `stRead` is the store snapshot observed by
`await fs.readFile`, `stStat` the one observed by `await fs.stat`.
Mirrors the source line by line: truthy cache short-circuits; a rejected
read or a parse throw propagates with the state untouched; otherwise
`cachedData` is assigned, and only after the stat resolves is
`lastFileMtime` assigned (a rejected stat therefore propagates with
`cachedData` already set). -/
def readData (s : RepoState) (stRead stStat : PersistentStore) :
    RepoState × Except RepoError Json :=
  if s.cachedData.truthy then
    (s, Except.ok s.cachedData)
  else
    match stRead.file with
    | none => (s, Except.error RepoError.ioError)
    | some (Except.error _) => (s, Except.error RepoError.decodeError)
    | some (Except.ok j) =>
      match stStat.file with
      | none => (setCached s j, Except.error RepoError.ioError)
      | some _ =>
        ({ setCached s j with lastFileMtime := some stStat.mtime }, Except.ok j)

/-- `getLastModifiedTime()`: returns `lastFileMtime` without touching the
store. -/
def getLastModifiedTime (s : RepoState) : Option Nat := s.lastFileMtime

/-- The store snapshot right after `fs.writeFile(DATA_PATH,
JSON.stringify(data, null, 2))` succeeds: the file holds a well-formed
serialization of `data`, with the filesystem-assigned mtime `m`. -/
def writtenStore (data : Json) (m : Nat) : PersistentStore :=
  { file := some (Except.ok data), mtime := m }

/-- `writeData(data)`.  `writeOk` tells whether `await fs.writeFile`
succeeds (on success the store becomes `writtenStore data m`); `stStat`
is the snapshot observed by the subsequent `await fs.stat`.  Mirrors the
source: a rejected write propagates with the state untouched; on a
successful write `cachedData = null` is assigned, and only after the
stat resolves is `lastFileMtime` assigned (a rejected stat therefore
propagates with `cachedData` already cleared). -/
def writeData (s : RepoState) (data : Json) (writeOk : Bool)
    (stStat : PersistentStore) : RepoState × Except RepoError Unit :=
  if writeOk then
    match stStat.file with
    | none => (setCached s Json.null, Except.error RepoError.ioError)
    | some _ =>
      ({ setCached s Json.null with lastFileMtime := some stStat.mtime },
        Except.ok ())
  else
    (s, Except.error RepoError.ioError)

/-- The guard `!lastFileMtime || stats.mtime.getTime() !==
lastFileMtime.getTime()` of the watcher callback. -/
def mtimeChanged (last : Option Nat) (m : Nat) : Bool :=
  match last with
  | none => true
  | some prev => m != prev

/-- The `fs.watch` callback (lines 14 to 28 of the source).  `eventType`
is the string the watcher delivers; `statRes` is the outcome of
`await fs.stat` (`none` when it rejects), consulted only for a
`"change"` event.  On a changed mtime it assigns `cachedData = null` and
`lastFileMtime = stats.mtime` in two adjacent synchronous statements (no
suspension point between them); when the stat rejects, the catch block
assigns only `cachedData = null` and swallows the error (the callback
has no caller to propagate to, hence the plain `RepoState` result
type). -/
def watchCallback (s : RepoState) (eventType : String) (statRes : Option Nat) :
    RepoState :=
  if eventType = "change" then
    match statRes with
    | some m =>
      if mtimeChanged s.lastFileMtime m then
        { cachedData := Json.null, lastFileMtime := some m }
      else
        s
    | none => { s with cachedData := Json.null }
  else
    s

/-- A concrete collection, the seed data of the spec scenario:
`[{id:1,price:100},{id:2,price:200}]`. -/
def demoCollection : Json :=
  Json.arr
    [Json.obj [("id", Json.num 1), ("price", Json.num 100)],
     Json.obj [("id", Json.num 2), ("price", Json.num 200)]]

/-- C1: for every JSON-serializable Collection `data` and every cache
state, after `writeData data` succeeds (its post-write stat observing
the store the write produced), the next `readData` with no intervening
store modification returns `data`: the serialize-then-write followed by
read-then-decode round-trips, because the successful write clears
`cachedData`, forcing the next read to reload the just-written store. -/
theorem c1_write_then_read_coherence (s : RepoState) (data : Json) (m : Nat) :
    (writeData s data true (writtenStore data m)).2 = Except.ok ()
  ∧ (readData (writeData s data true (writtenStore data m)).1
      (writtenStore data m) (writtenStore data m)).2 = Except.ok data :=
  ⟨rfl, rfl⟩

/-- C2: whenever `cachedData` is present (truthy), `readData` returns it
immediately: the result does not depend on the store snapshots (no
PersistentStore access) and the state is returned unchanged, so a second
consecutive call returns the identical cached value again. -/
theorem c2_cache_short_circuit (s : RepoState) (st1 st2 : PersistentStore)
    (h : s.cachedData.truthy = true) :
    readData s st1 st2 = (s, Except.ok s.cachedData) := by
  simp [readData, h]

/-- Witness for C2 at a primed cache holding `demoCollection`, with store
snapshots on which any actual access would reject. -/
theorem c2_witness :
    Json.truthy demoCollection = true
  ∧ readData { cachedData := demoCollection, lastFileMtime := some 3 }
      { file := none, mtime := 0 } { file := none, mtime := 0 }
      = ({ cachedData := demoCollection, lastFileMtime := some 3 },
          Except.ok demoCollection) :=
  ⟨rfl, c2_cache_short_circuit
    { cachedData := demoCollection, lastFileMtime := some 3 }
    { file := none, mtime := 0 } { file := none, mtime := 0 } rfl⟩

/-- C6: from any primed cache state, if the store is externally replaced
by content `c` with an advanced mtime `tn` (different from the recorded
token) and the corresponding `"change"` notification is processed, the
next `readData` reloads from the store and returns the new content `c`,
not the stale cached collection. -/
theorem c6_external_change_invalidation (s : RepoState) (c : Json) (tn : Nat)
    (h : some tn ≠ s.lastFileMtime) :
    readData (watchCallback s "change" (some tn))
      (writtenStore c tn) (writtenStore c tn)
      = ({ cachedData := c, lastFileMtime := some tn }, Except.ok c) := by
  have hm : mtimeChanged s.lastFileMtime tn = true := by
    cases hl : s.lastFileMtime with
    | none => rfl
    | some prev =>
      simp only [mtimeChanged, bne_iff_ne, ne_eq, decide_eq_true_eq]
      intro he
      exact h (by rw [hl, he])
  simp [watchCallback, hm, readData, writtenStore, setCached, Json.truthy]

/-- Witness for C6: empty initial state, store replaced by
`demoCollection` at mtime 7, notification processed, read returns the
new content. -/
theorem c6_witness :
    some 7 ≠ initState.lastFileMtime
  ∧ readData (watchCallback initState "change" (some 7))
      (writtenStore demoCollection 7) (writtenStore demoCollection 7)
      = ({ cachedData := demoCollection, lastFileMtime := some 7 },
          Except.ok demoCollection) :=
  ⟨by decide, c6_external_change_invalidation initState demoCollection 7 (by decide)⟩

/-- C7: a `"change"` notification whose stat reports an mtime equal to
the already-recorded `lastFileMtime` is a no-op on the cache state: no
invalidation, hence no reload on the next read and no observable effect
beyond the first notification (the callback is idempotent for an
unchanged signal). -/
theorem c7_duplicate_notification_noop (s : RepoState) (m : Nat)
    (h : s.lastFileMtime = some m) :
    watchCallback s "change" (some m) = s := by
  simp [watchCallback, mtimeChanged, h]

/-- Witness for C7 at a primed cache with recorded mtime 4. -/
theorem c7_witness :
    ({ cachedData := demoCollection, lastFileMtime := some 4 }
        : RepoState).lastFileMtime = some 4
  ∧ watchCallback { cachedData := demoCollection, lastFileMtime := some 4 }
      "change" (some 4)
      = { cachedData := demoCollection, lastFileMtime := some 4 } :=
  ⟨rfl, c7_duplicate_notification_noop
    { cachedData := demoCollection, lastFileMtime := some 4 } 4 rfl⟩

/-- C8: when the stat inside a `"change"` notification rejects, the
callback clears `cachedData` unconditionally and leaves `lastFileMtime`
at its last-known value (the error is swallowed by the catch block, not
propagated: the callback returns a plain state); consequently the next
`readData` is forced to reload and returns the current store content. -/
theorem c8_stat_failure_invalidates (s : RepoState) (c : Json) (t : Nat) :
    watchCallback s "change" none
      = { cachedData := Json.null, lastFileMtime := s.lastFileMtime }
  ∧ (readData (watchCallback s "change" none)
      (writtenStore c t) (writtenStore c t)).2 = Except.ok c := by
  constructor
  · rfl
  · simp [watchCallback, readData, writtenStore, setCached, Json.truthy]

/-- C10: the callback invalidates only on `"change"` events: any
notification with a different event type (such as `"rename"`) leaves the
whole cache state unchanged, whatever the stat would report. -/
theorem c10_non_change_events_ignored (s : RepoState) (ev : String)
    (statRes : Option Nat) (h : ev ≠ "change") :
    watchCallback s ev statRes = s := by
  simp [watchCallback, h]

/-- Witness for C10 at a `"rename"` event on a primed cache. -/
theorem c10_witness :
    "rename" ≠ "change"
  ∧ watchCallback { cachedData := demoCollection, lastFileMtime := some 4 }
      "rename" (some 9)
      = { cachedData := demoCollection, lastFileMtime := some 4 } :=
  ⟨by decide, c10_non_change_events_ignored
    { cachedData := demoCollection, lastFileMtime := some 4 } "rename"
    (some 9) (by decide)⟩

/-- C3 counterexample: the claim says every failing `readData` leaves the
cache empty, but when `fs.readFile` and `JSON.parse` succeed and only
the subsequent `fs.stat` rejects (store snapshot with `file = none`),
the call fails with `ioError` while `cachedData` already holds the
freshly parsed, truthy collection: the cache is not empty after the
failure. -/
theorem c3_counterexample :
    readData { cachedData := Json.null, lastFileMtime := some 5 }
      (writtenStore demoCollection 7) { file := none, mtime := 0 }
      = ({ cachedData := demoCollection, lastFileMtime := some 5 },
          Except.error RepoError.ioError)
  ∧ Json.truthy demoCollection = true :=
  ⟨rfl, rfl⟩

/-- C3 amended: when `readData` fails because the store read rejects
(`ioError`) or the content is malformed (`decodeError`), the cache state
is left exactly as it was - in particular still empty (falsy) - so the
next call retries from scratch and, once the store is repaired to
content `c`, returns `c`; but when the post-read stat rejects, the cache
is left holding the just-parsed collection, not empty. -/
theorem c3_failed_read_cache_not_poisoned (s : RepoState)
    (h : s.cachedData.truthy = false) (t1 t2 u : Nat) (c : Json)
    (st : PersistentStore) :
    readData s { file := none, mtime := t1 } st
      = (s, Except.error RepoError.ioError)
  ∧ readData s { file := some (Except.error ()), mtime := t2 } st
      = (s, Except.error RepoError.decodeError)
  ∧ (readData s (writtenStore c u) (writtenStore c u)).2 = Except.ok c := by
  refine ⟨?_, ?_, ?_⟩ <;> simp [readData, h, writtenStore]

/-- Witness for the amended C3 at the initial state, with the repaired
store holding `demoCollection`. -/
theorem c3_witness :
    Json.truthy initState.cachedData = false
  ∧ (readData initState { file := none, mtime := 1 } { file := none, mtime := 1 }
      = (initState, Except.error RepoError.ioError)
    ∧ readData initState { file := some (Except.error ()), mtime := 2 }
        { file := none, mtime := 1 }
        = (initState, Except.error RepoError.decodeError)
    ∧ (readData initState (writtenStore demoCollection 3)
        (writtenStore demoCollection 3)).2 = Except.ok demoCollection) :=
  ⟨rfl, c3_failed_read_cache_not_poisoned initState rfl 1 2 3 demoCollection
    { file := none, mtime := 1 }⟩

/-- C4 counterexample: the claim says a `writeData` that fails with an
IO error leaves the cache state exactly as before the call, but when
`fs.writeFile` succeeds and only the post-write `fs.stat` rejects, the
call fails with `ioError` after `cachedData = null` has already run: the
cache state changed (the cached collection was cleared) on a failed
write. -/
theorem c4_counterexample :
    writeData { cachedData := demoCollection, lastFileMtime := some 5 }
      demoCollection true { file := none, mtime := 0 }
      = ({ cachedData := Json.null, lastFileMtime := some 5 },
          Except.error RepoError.ioError)
  ∧ ({ cachedData := Json.null, lastFileMtime := some 5 } : RepoState)
      ≠ { cachedData := demoCollection, lastFileMtime := some 5 } := by
  refine ⟨rfl, fun h => ?_⟩
  have h1 := congrArg RepoState.cachedData h
  simp only [demoCollection] at h1
  exact Json.noConfusion h1

/-- C4 amended: when the write-to-store step itself rejects, the cache
state is left exactly as before the call; when the write succeeds and
only the post-write stat rejects, the call fails with `cachedData`
already cleared and `lastFileMtime` unchanged (full invalidation of the
cached collection, not a partial token update). -/
theorem c4_failed_write_cache_effect (s : RepoState) (data : Json)
    (st : PersistentStore) (t : Nat) :
    writeData s data false st = (s, Except.error RepoError.ioError)
  ∧ writeData s data true { file := none, mtime := t }
      = ({ cachedData := Json.null, lastFileMtime := s.lastFileMtime },
          Except.error RepoError.ioError) :=
  ⟨rfl, rfl⟩

/-- C5 counterexample: the claim says no interleaving point exists at
which one of the two cache fields has been updated for the current
operation and the other has not.  But `readData` (and likewise
`writeData`) passes through the state `setCached s j` at the
`await fs.stat` suspension point: there `cachedData` has already been
assigned the parsed collection while `lastFileMtime` still holds the
pre-call token 5, and only when the operation completes is
`lastFileMtime` set to 7 - an interleaving point with exactly one field
updated. -/
theorem c5_counterexample :
    setCached { cachedData := Json.null, lastFileMtime := some 5 } demoCollection
      = { cachedData := demoCollection, lastFileMtime := some 5 }
  ∧ readData { cachedData := Json.null, lastFileMtime := some 5 }
      (writtenStore demoCollection 7) (writtenStore demoCollection 7)
      = ({ setCached { cachedData := Json.null, lastFileMtime := some 5 }
            demoCollection with lastFileMtime := some 7 },
          Except.ok demoCollection)
  ∧ (some 5 : Option Nat) ≠ some 7 :=
  ⟨rfl, rfl, by decide⟩

/-- C5 amended: only the watcher callback updates the two cache fields
atomically - on a `"change"` event whose stat resolves, it either leaves
the state untouched or assigns `cachedData = null` and
`lastFileMtime = stats.mtime` in one synchronous segment with no
suspension point between them; `readData` and `writeData` each suspend
on `fs.stat` between their two field updates. -/
theorem c5_watcher_updates_pair_atomically (s : RepoState) (m : Nat) :
    watchCallback s "change" (some m) = s
  ∨ watchCallback s "change" (some m)
      = { cachedData := Json.null, lastFileMtime := some m } := by
  cases hc : mtimeChanged s.lastFileMtime m
  · left
    simp [watchCallback, hc]
  · right
    simp [watchCallback, hc]

/-- C9: when the store decodes to a falsy JSON value `v` (such as `0`,
`false`, `null` or the empty string) rather than an array, a cache-miss
`readData` stores `v` and returns it, yet the cache is never treated as
populated: the stored value is falsy, so a subsequent `readData` reloads
and re-decodes from the store again (here returning the current content
`w` of a later store snapshot), because presence is tested by truthiness
of the decoded value, not by a separate flag. -/
theorem c9_falsy_decode_never_caches (s : RepoState) (v w : Json)
    (t u : Nat) (hs : s.cachedData.truthy = false)
    (hv : v.truthy = false) :
    (readData s (writtenStore v t) (writtenStore v t)).1.cachedData = v
  ∧ (readData s (writtenStore v t) (writtenStore v t)).2 = Except.ok v
  ∧ (readData (readData s (writtenStore v t) (writtenStore v t)).1
      (writtenStore w u) (writtenStore w u)).2 = Except.ok w := by
  refine ⟨?_, ?_, ?_⟩ <;> simp [readData, hs, hv, writtenStore, setCached]

/-- Witness for C9: store content `0` (falsy) read from the initial
state, then a second read against a store holding `demoCollection`
reloads and returns it. -/
theorem c9_witness :
    Json.truthy initState.cachedData = false
  ∧ Json.truthy (Json.num 0) = false
  ∧ ((readData initState (writtenStore (Json.num 0) 1)
        (writtenStore (Json.num 0) 1)).1.cachedData = Json.num 0
    ∧ (readData initState (writtenStore (Json.num 0) 1)
        (writtenStore (Json.num 0) 1)).2 = Except.ok (Json.num 0)
    ∧ (readData (readData initState (writtenStore (Json.num 0) 1)
          (writtenStore (Json.num 0) 1)).1
        (writtenStore demoCollection 2) (writtenStore demoCollection 2)).2
        = Except.ok demoCollection) :=
  ⟨rfl, by decide,
    c9_falsy_decode_never_caches initState (Json.num 0) demoCollection 1 2
      rfl (by decide)⟩
